import Mathlib

/-!
Verification development for the quiz-generation core of
`Generate_Question.py` (class `QuizGenerator` plus its schema helpers).

The Python code is shallowly embedded: JSON values produced by the
LLM chain are modelled by `JValue` (JSON numbers are modelled as
integers; no claim involves numeric question content), Python
exceptions by `PyErr`, and every fallible operation returns
`Except PyErr _`.  The chain (`retriever | prompt | llm | parser`)
is an external collaborator: one run is parameterised by an oracle
`chain : Nat → Except PyErr JValue` giving the outcome of the k-th
chain invocation, and by `sp : String → Option JValue` giving the
behaviour of `json.loads` on string inputs (`none` models a
`json.JSONDecodeError`).
-/

namespace Quizify

/-- A JSON value as produced by parsing model output
(`JsonOutputParser` / `json.loads`).  Numbers are modelled as `Int`. -/
inductive JValue where
  | jnull : JValue
  | jbool : Bool → JValue
  | jnum : Int → JValue
  | jstr : String → JValue
  | jarr : List JValue → JValue
  | jobj : List (String × JValue) → JValue

/-- Python exceptions that can arise in the embedded code.
`outputParserException` is the parse failure raised inside the chain
(the spec's `SchemaError`); `modelError` is a transport failure of the
model call. -/
inductive PyErr where
  | valueError : String → PyErr
  | typeError : String → PyErr
  | keyError : String → PyErr
  | jsonDecodeError : PyErr
  | outputParserException : PyErr
  | modelError : PyErr

/-- Python truthiness of a JSON value (`bool(v)`). -/
def truthy : JValue → Bool
  | .jnull => false
  | .jbool b => b
  | .jnum n => n != 0
  | .jstr s => s != ""
  | .jarr xs => !xs.isEmpty
  | .jobj fs => !fs.isEmpty

/-- First binding of key `k` in a dict's field list (Python dicts have
unique keys, so first-match lookup models `d[k]`). -/
def lookupField : String → List (String × JValue) → Option JValue
  | _, [] => none
  | k, (k2, w) :: bs => if k == k2 then some w else lookupField k bs

mutual

/-- Python `==` on parsed-JSON values: structural, with dicts compared
as key-value maps (order-insensitive) and `bool`/`int` cross-equality
(`True == 1`). -/
def pyEq : JValue → JValue → Bool
  | .jnull, .jnull => true
  | .jbool a, .jbool b => a == b
  | .jbool a, .jnum b => (if a then (1 : Int) else 0) == b
  | .jnum a, .jbool b => a == (if b then (1 : Int) else 0)
  | .jnum a, .jnum b => a == b
  | .jstr a, .jstr b => a == b
  | .jarr as, .jarr bs => pyEqList as bs
  | .jobj as, .jobj bs => as.length == bs.length && pyEqFields as bs
  | _, _ => false
termination_by structural v _ => v

/-- Elementwise Python `==` on lists. -/
def pyEqList : List JValue → List JValue → Bool
  | [], [] => true
  | a :: as, b :: bs => pyEq a b && pyEqList as bs
  | _, _ => false
termination_by structural v _ => v

/-- Every binding of the first dict is matched by an equal binding of
the second (with a length check this models Python dict `==` for dicts
with unique keys). -/
def pyEqFields : List (String × JValue) → List (String × JValue) → Bool
  | [], _ => true
  | (k, v) :: rest, bs =>
      (match lookupField k bs with
       | some w => pyEq v w
       | none => false) && pyEqFields rest bs
termination_by structural v _ => v

end

/-- Does the character list `sub` occur at the head of `s`? -/
def matchesAt : List Char → List Char → Bool
  | _, [] => true
  | [], _ :: _ => false
  | c :: s, d :: t => c == d && matchesAt s t

/-- Does `sub` occur as a contiguous sublist of `s`?  Models Python's
substring test `sub in s` for strings. -/
def hasSubstring : List Char → List Char → Bool
  | [], t => matchesAt [] t
  | s@(_ :: s2), t => matchesAt s t || hasSubstring s2 t

/-- Python membership test `k in v` for a string key `k` against a
parsed-JSON value `v`: key membership for dicts, element membership for
lists, substring test for strings, `TypeError` otherwise. -/
def pyContains : JValue → String → Except PyErr Bool
  | .jobj fs, k => .ok (fs.any (fun f => f.1 == k))
  | .jarr xs, k => .ok (xs.any (fun x => pyEq x (.jstr k)))
  | .jstr s, k => .ok (hasSubstring s.data k.data)
  | .jnum _, _ => .error (.typeError "argument of type 'int' is not iterable")
  | .jbool _, _ => .error (.typeError "argument of type 'bool' is not iterable")
  | .jnull, _ => .error (.typeError "argument of type 'NoneType' is not iterable")

/-- Python subscript `v[k]` with a string key: dict lookup (KeyError if
absent), `TypeError` on every other value shape. -/
def pySubscript : JValue → String → Except PyErr JValue
  | .jobj fs, k =>
      match lookupField k fs with
      | some w => .ok w
      | none => .error (.keyError k)
  | .jarr _, _ => .error (.typeError "list indices must be integers or slices, not str")
  | .jstr _, _ => .error (.typeError "string indices must be integers")
  | .jnum _, _ => .error (.typeError "'int' object is not subscriptable")
  | .jbool _, _ => .error (.typeError "'bool' object is not subscriptable")
  | .jnull, _ => .error (.typeError "'NoneType' object is not subscriptable")

/-- The `question` field of a candidate, when subscripting succeeds. -/
def questionField (v : JValue) : Option JValue :=
  (pySubscript v "question").toOption

/-- Whether `questionField` is non-`none` with a Python-truthy value. -/
def hasTruthyQuestion (v : JValue) : Bool :=
  match questionField v with
  | some x => truthy x
  | none => false

/-- Does bank entry `e` have a `question` field Python-equal to `qv`? -/
def isDuplicateOf (qv : JValue) (e : JValue) : Bool :=
  match questionField e with
  | some ev => pyEq ev qv
  | none => false

/-- The scan loop of `QuizGenerator.validate_question`: walk the
question bank, subscript each stored entry at `"question"`, and report
`false` (with early exit) on the first entry Python-equal to `qv`. -/
def bankScan (qv : JValue) : List JValue → Except PyErr Bool
  | [] => .ok true
  | e :: rest =>
      match pySubscript e "question" with
      | .error er => .error er
      | .ok ev => if pyEq ev qv then .ok false else bankScan qv rest

/-- Embedding of `QuizGenerator.validate_question`, line by line:
raise `ValueError` when `'question' not in question or not
question['question']` (short-circuit evaluation), otherwise scan the
bank linearly for an entry with Python-equal `question` text. -/
def validate_question (bank : List JValue) (question : JValue) : Except PyErr Bool :=
  match pyContains question "question" with
  | .error er => .error er
  | .ok mem =>
    if mem = false then
      .error (.valueError "The dict object must contain a non-empty 'question' key")
    else
      match pySubscript question "question" with
      | .error er => .error er
      | .ok qv =>
        if truthy qv = false then
          .error (.valueError "The dict object must contain a non-empty 'question' key")
        else
          bankScan qv bank

/-- The fields of a `QuizGenerator` instance set by `__init__` that the
verified claims depend on.  The vectorstore handle is abstracted to its
Python truthiness (the code only tests `if not self.vectorstore`). -/
structure QuizGenerator where
  topic : String
  num_questions : Int
  vectorstore : Bool
  question_bank : List JValue

/-- Embedding of `QuizGenerator.__init__`: default the topic to "General Knowledge"
when the argument is falsy (`None` or the empty string), reject
`num_questions > 10` with a `ValueError`, and start with an empty
question bank. -/
def QuizGenerator.init (topic : Option String) (num_questions : Int)
    (vectorstore : Bool) : Except PyErr QuizGenerator :=
  let t := match topic with
    | none => "General Knowledge"
    | some s => if s == "" then "General Knowledge" else s
  if num_questions > 10 then
    .error (.valueError "Number of questions cannot exceed 10.")
  else
    .ok ⟨t, num_questions, vectorstore, []⟩

/-- One chain-invocation oracle: the outcome of the k-th call of
`chain.invoke(self.topic)` inside `generate_question_with_vectorstore`
(either a parsed JSON value from `JsonOutputParser`, or an exception
such as the parser's `OutputParserException` or a model failure). -/
abbrev Chain := Nat → Except PyErr JValue

/-- Behaviour of `json.loads` on string input: `some v` for a
successful parse, `none` for a `json.JSONDecodeError`. -/
abbrev StrParse := String → Option JValue

/-- Embedding of `QuizGenerator.generate_question_with_vectorstore`: raise
`ValueError` when the vectorstore handle is falsy, otherwise invoke the
chain (the lazy `init_llm` call has no observable effect here). -/
def generate_question_with_vectorstore (vectorstore : Bool) (chain : Chain)
    (k : Nat) : Except PyErr JValue :=
  if vectorstore = false then .error (.valueError "Vectorstore not provided.")
  else chain k

/-- Embedding of `json.loads(v)`: parse when `v` is a string (decode failure is a
`json.JSONDecodeError`), `TypeError` on any non-string argument. -/
def json_loads (sp : StrParse) : JValue → Except PyErr JValue
  | .jstr s =>
      match sp s with
      | some v => .ok v
      | none => .error .jsonDecodeError
  | _ => .error (.typeError "the JSON object must be str, bytes or bytearray")

/-- The `for i in range(3)` retry sub-loop of `generate_quiz`:
re-invoke the chain, re-parse the result with `json.loads` (only
`json.JSONDecodeError` is caught and turned into `continue`), append
and break on a unique candidate.  On a duplicate candidate the loop
evaluates `"Duplicate or invalid question detected - Attempt " + (i+1)`,
which raises `TypeError` (str + int). -/
def retrySubLoop (sp : StrParse) (vs : Bool) (chain : Chain) :
    Nat → List JValue → Nat → Except PyErr (List JValue × Nat)
  | 0, bank, k => .ok (bank, k)
  | fuel + 1, bank, k =>
      match generate_question_with_vectorstore vs chain k with
      | .error er => .error er
      | .ok qs =>
        match json_loads sp qs with
        | .error .jsonDecodeError => retrySubLoop sp vs chain fuel bank (k + 1)
        | .error er => .error er
        | .ok question =>
          match validate_question bank question with
          | .error er => .error er
          | .ok true => .ok (bank ++ [question], k + 1)
          | .ok false => .error (.typeError "can only concatenate str (not \"int\") to str")

/-- The `for _ in range(self.num_questions)` main loop of
`generate_quiz`: generate a candidate, validate it, append when unique,
otherwise run the retry sub-loop.  The `Nat` component threads the
index of the next chain invocation. -/
def quizLoop (sp : StrParse) (vs : Bool) (chain : Chain) :
    Nat → List JValue → Nat → Except PyErr (List JValue × Nat)
  | 0, bank, k => .ok (bank, k)
  | n + 1, bank, k =>
      match generate_question_with_vectorstore vs chain k with
      | .error er => .error er
      | .ok question =>
        match validate_question bank question with
        | .error er => .error er
        | .ok true => quizLoop sp vs chain n (bank ++ [question]) (k + 1)
        | .ok false =>
          match retrySubLoop sp vs chain 3 bank (k + 1) with
          | .error er => .error er
          | .ok r => quizLoop sp vs chain n r.1 r.2

/-- Embedding of `QuizGenerator.generate_quiz`: reset the question bank to `[]`,
run the main loop `num_questions` times (`range` of a non-positive
count is empty, as `Int.toNat` clamps), and return the bank. -/
def generate_quiz (sp : StrParse) (chain : Chain) (g : QuizGenerator) :
    Except PyErr (List JValue) :=
  (quizLoop sp g.vectorstore chain g.num_questions.toNat [] 0).map Prod.fst

/-! ### Spec-side definition for the Question invariants -/

/-- The `key` field of one parsed choice entry, when it is a dict with
a string-valued `key`. -/
def choiceKey (c : JValue) : Option String :=
  match c with
  | .jobj fs =>
      match lookupField "key" fs with
      | some (.jstr k) => some k
      | _ => none
  | _ => none

/-- Modelled from the spec: the Question invariants of §3 / §8 of the
specification, stated over a parsed candidate — `question` is a
non-empty string, `choices` has exactly 4 entries whose keys are
exactly {A,B,C,D}, and `answer` is one of A–D matching a choice key.
This definition follows the spec's words; it is compared against what
the code actually enforces. -/
def specQuestionValid (v : JValue) : Bool :=
  match v with
  | .jobj fs =>
      (match lookupField "question" fs with
       | some (.jstr s) => s != ""
       | _ => false) &&
      (match lookupField "choices" fs with
       | some (.jarr cs) =>
           cs.length == 4 &&
           (["A", "B", "C", "D"].all (fun k => cs.any (fun c => choiceKey c == some k))) &&
           (match lookupField "answer" fs with
            | some (.jstr a) =>
                (a == "A" || a == "B" || a == "C" || a == "D") &&
                cs.any (fun c => choiceKey c == some a)
            | _ => false)
       | _ => false)
  | _ => false

/-! ### Concrete fixtures used by witnesses and counterexamples -/

/-- A well-formed parsed question with text `s`, shaped like the
running example in `QuestionSchema.model_config`. -/
def mkQ (s : String) : JValue :=
  .jobj [("question", .jstr s),
         ("choices", .jarr [.jobj [("key", .jstr "A"), ("value", .jstr "a")],
                            .jobj [("key", .jstr "B"), ("value", .jstr "b")],
                            .jobj [("key", .jstr "C"), ("value", .jstr "c")],
                            .jobj [("key", .jstr "D"), ("value", .jstr "d")]]),
         ("answer", .jstr "A"),
         ("explanation", .jstr "because")]

/-- A `json.loads` oracle on which every string fails to decode. -/
def sp0 : StrParse := fun _ => none

/-- A chain that always returns the same parsed question. -/
def chainDup : Chain := fun _ => .ok (mkQ "q1")

/-- A chain whose parser fails (`OutputParserException`) on every call. -/
def chainErr : Chain := fun _ => .error .outputParserException

/-- A chain producing two distinct questions. -/
def chainAB : Chain := fun k => if k = 0 then .ok (mkQ "alpha") else .ok (mkQ "beta")

/-- A chain returning a malformed candidate: empty `choices`, answer
`"E"`, but a non-empty `question`. -/
def badQ : JValue :=
  .jobj [("question", .jstr "q"), ("choices", .jarr []), ("answer", .jstr "E")]

/-- A chain that always returns the malformed candidate `badQ`. -/
def chainBad : Chain := fun _ => .ok badQ

/-- A generator instance configured for one question. -/
def gen1 : QuizGenerator := ⟨"X", 1, true, []⟩

/-- A generator instance configured for two questions. -/
def gen2 : QuizGenerator := ⟨"X", 2, true, []⟩

/-- A `json.loads` oracle that parses the single string "J" into the
question `mkQ "q1"`. -/
def spQ1 : StrParse := fun s => if s = "J" then some (mkQ "q1") else none

/-- A chain returning the parsed question `q1` twice and then the raw
JSON string `"J"` on every later call. -/
def chainStr : Chain := fun k => if k ≤ 1 then .ok (mkQ "q1") else .ok (.jstr "J")

/-- Two bank entries have Python-unequal `question` fields. -/
def qdistinct (a b : JValue) : Prop :=
  ∀ x y, questionField a = some x → questionField b = some y → pyEq x y = false

/-- Invariant of the question bank: every entry has a truthy `question`
field and the `question` fields are pairwise Python-unequal. -/
def BankInv (bank : List JValue) : Prop :=
  (∀ e ∈ bank, ∃ v, questionField e = some v ∧ truthy v = true) ∧
  List.Pairwise qdistinct bank

end Quizify

namespace Quizify

/-! ### Helper lemmas -/

theorem toOption_eq_some {r : Except PyErr JValue} {a : JValue} :
    r.toOption = some a ↔ r = .ok a := by
  cases r <;> simp [Except.toOption]

theorem questionField_eq_some {v x : JValue} :
    questionField v = some x ↔ pySubscript v "question" = .ok x := by
  simp [questionField, toOption_eq_some]

theorem bankScan_eq (qv : JValue) (bank : List JValue)
    (hbank : ∀ e ∈ bank, (questionField e).isSome) :
    bankScan qv bank = .ok (!bank.any (isDuplicateOf qv)) := by
  induction bank with
  | nil => simp [bankScan]
  | cons e rest ih =>
      obtain ⟨ev, hev⟩ : ∃ ev, questionField e = some ev := by
        have := hbank e (by simp)
        cases h : questionField e with
        | none => rw [h] at this; simp at this
        | some x => exact ⟨x, rfl⟩
      have hsub : pySubscript e "question" = .ok ev := questionField_eq_some.mp hev
      have hdup : isDuplicateOf qv e = pyEq ev qv := by
        simp [isDuplicateOf, hev]
      cases hpe : pyEq ev qv with
      | true => simp [bankScan, hsub, hpe, hdup]
      | false =>
          have := ih (fun x hx => hbank x (by simp [hx]))
          simp [bankScan, hsub, hpe, hdup, this]

theorem bankScan_ok_true {qv : JValue} {bank : List JValue}
    (h : bankScan qv bank = .ok true) :
    ∀ e ∈ bank, ∃ ev, pySubscript e "question" = .ok ev ∧ pyEq ev qv = false := by
  induction bank with
  | nil => simp
  | cons e rest ih =>
      intro x hx
      unfold bankScan at h
      split at h
      · simp at h
      · rename_i ev hsub
        split at h
        · simp at h
        · rename_i hpe
          rcases List.mem_cons.mp hx with hxe | hxr
          · subst hxe; exact ⟨ev, hsub, by simpa using hpe⟩
          · exact ih h x hxr

theorem validate_ok_true_elim {bank : List JValue} {q : JValue}
    (h : validate_question bank q = .ok true) :
    ∃ qv, pySubscript q "question" = .ok qv ∧ truthy qv = true ∧
      bankScan qv bank = .ok true := by
  unfold validate_question at h
  split at h
  · simp at h
  · split at h
    · simp at h
    · split at h
      · simp at h
      · rename_i qv hs
        split at h
        · simp at h
        · rename_i ht
          exact ⟨qv, hs, by simpa using ht, h⟩

end Quizify

namespace Quizify

theorem bankInv_nil : BankInv [] := ⟨by simp, List.Pairwise.nil⟩

theorem bankInv_append {bank : List JValue} {q : JValue} (hinv : BankInv bank)
    (hok : validate_question bank q = .ok true) : BankInv (bank ++ [q]) := by
  obtain ⟨qv, hsub, htr, hscan⟩ := validate_ok_true_elim hok
  have hqf : questionField q = some qv := questionField_eq_some.mpr hsub
  have hscan' := bankScan_ok_true hscan
  constructor
  · intro e he
    rcases List.mem_append.mp he with he | he
    · exact hinv.1 e he
    · have : e = q := by simpa using he
      exact ⟨qv, by rw [this]; exact hqf, htr⟩
  · rw [List.pairwise_append]
    refine ⟨hinv.2, by simp [List.Pairwise], ?_⟩
    intro a ha b hb
    have hbq : b = q := by simpa using hb
    subst hbq
    intro x y hax hby
    obtain ⟨ev, hev, hpe⟩ := hscan' a ha
    have hx : x = ev := by
      have := questionField_eq_some.mp hax
      rw [this] at hev; exact (Except.ok.injEq _ _).mp hev.symm ▸ rfl
    have hy : y = qv := by
      rw [hqf] at hby; exact (Option.some.injEq _ _).mp hby.symm
    rw [hx, hy]
    exact hpe

end Quizify

namespace Quizify

theorem retrySubLoop_growth (sp : StrParse) (vs : Bool) (chain : Chain) :
    ∀ (fuel : Nat) (bank : List JValue) (k : Nat) (r : List JValue × Nat),
      retrySubLoop sp vs chain fuel bank k = .ok r →
      ∃ t, r.1 = bank ++ t ∧ t.length ≤ 1 := by
  intro fuel
  induction fuel with
  | zero =>
      intro bank k r h
      unfold retrySubLoop at h
      simp at h
      exact ⟨[], by simp [← h], by simp⟩
  | succ fuel ih =>
      intro bank k r h
      unfold retrySubLoop at h
      split at h
      · simp at h
      · rename_i qs hqs
        split at h
        · exact ih _ _ _ h
        · simp at h
        · rename_i question hjl
          split at h
          · simp at h
          · simp at h
            exact ⟨[question], by simp [← h], by simp⟩
          · simp at h

theorem retrySubLoop_inv (sp : StrParse) (vs : Bool) (chain : Chain) :
    ∀ (fuel : Nat) (bank : List JValue) (k : Nat) (r : List JValue × Nat),
      retrySubLoop sp vs chain fuel bank k = .ok r →
      BankInv bank → BankInv r.1 := by
  intro fuel
  induction fuel with
  | zero =>
      intro bank k r h hinv
      unfold retrySubLoop at h
      simp at h
      rw [← h]
      exact hinv
  | succ fuel ih =>
      intro bank k r h hinv
      unfold retrySubLoop at h
      split at h
      · simp at h
      · split at h
        · exact ih _ _ _ h hinv
        · simp at h
        · split at h
          · simp at h
          · rename_i hv
            simp at h
            rw [← h]
            exact bankInv_append hinv hv
          · simp at h

theorem quizLoop_growth (sp : StrParse) (vs : Bool) (chain : Chain) :
    ∀ (n : Nat) (bank : List JValue) (k : Nat) (r : List JValue × Nat),
      quizLoop sp vs chain n bank k = .ok r →
      ∃ t, r.1 = bank ++ t ∧ t.length ≤ n := by
  intro n
  induction n with
  | zero =>
      intro bank k r h
      unfold quizLoop at h
      simp at h
      exact ⟨[], by simp [← h], by simp⟩
  | succ n ih =>
      intro bank k r h
      unfold quizLoop at h
      split at h
      · simp at h
      · rename_i question hq
        split at h
        · simp at h
        · obtain ⟨t, ht, hl⟩ := ih _ _ _ h
          refine ⟨question :: t, by simp [ht], ?_⟩
          simpa using Nat.succ_le_succ hl
        · split at h
          · simp at h
          · rename_i r2 hr2
            obtain ⟨t1, ht1, hl1⟩ := retrySubLoop_growth sp vs chain 3 bank _ r2 hr2
            obtain ⟨t2, ht2, hl2⟩ := ih _ _ _ h
            refine ⟨t1 ++ t2, by rw [ht2, ht1, List.append_assoc], ?_⟩
            simp only [List.length_append]
            omega

theorem quizLoop_inv (sp : StrParse) (vs : Bool) (chain : Chain) :
    ∀ (n : Nat) (bank : List JValue) (k : Nat) (r : List JValue × Nat),
      quizLoop sp vs chain n bank k = .ok r →
      BankInv bank → BankInv r.1 := by
  intro n
  induction n with
  | zero =>
      intro bank k r h hinv
      unfold quizLoop at h
      simp at h
      rw [← h]
      exact hinv
  | succ n ih =>
      intro bank k r h hinv
      unfold quizLoop at h
      split at h
      · simp at h
      · split at h
        · simp at h
        · rename_i hv
          exact ih _ _ _ h (bankInv_append hinv hv)
        · split at h
          · simp at h
          · rename_i r2 hr2
            exact ih _ _ _ h (retrySubLoop_inv sp vs chain 3 bank _ r2 hr2 hinv)

end Quizify

namespace Quizify

theorem lookupField_none_iff (k : String) (fs : List (String × JValue)) :
    lookupField k fs = none ↔ fs.any (fun f => f.1 == k) = false := by
  induction fs with
  | nil => simp [lookupField]
  | cons f rest ih =>
      obtain ⟨k2, w⟩ := f
      by_cases hk : k = k2
      · subst hk
        simp [lookupField]
      · have hkb : (k == k2) = false := beq_eq_false_iff_ne.mpr hk
        have hk2b : (k2 == k) = false := beq_eq_false_iff_ne.mpr (Ne.symm hk)
        simp [lookupField, hkb, hk2b, ih]

theorem pySubscript_jobj (k : String) (fs : List (String × JValue)) (w : JValue) :
    pySubscript (.jobj fs) k = .ok w ↔ lookupField k fs = some w := by
  unfold pySubscript
  cases h : lookupField k fs <;> simp [h]

end Quizify

namespace Quizify

/-- Claim C1 (code bug): on the scenario of spec §8 ("mock chain always
returns the same question text"), the second slot's first candidate is
a duplicate, so the retry sub-loop starts; its first attempt calls
`json.loads` on the already-parsed dict returned by the chain and
crashes with an uncaught `TypeError` instead of retrying and skipping
the slot.  Moreover, even when a retry candidate does come as a string
(so `json.loads` succeeds), a repeated duplicate crashes on
`"... - Attempt " + (i+1)` (str + int `TypeError`). -/
theorem generate_quiz_retry_crash :
    generate_quiz sp0 chainDup gen2 =
      .error (.typeError "the JSON object must be str, bytes or bytearray") ∧
    generate_quiz spQ1 chainStr gen2 =
      .error (.typeError "can only concatenate str (not \"int\") to str") :=
  ⟨rfl, rfl⟩

/-- Claim C2, counterexample: a chain-level parse failure (the spec's
`SchemaError`, raised by `JsonOutputParser` inside `chain.invoke`) is
surfaced past `generate_quiz` as a crash, contradicting "never
surfaced past generate_quiz". -/
theorem schema_error_surfaces :
    generate_quiz sp0 chainErr gen1 = .error .outputParserException := rfl

/-- Claim C2 as amended: a parse failure of the chain's raw response
propagates out of `generate_quiz` and aborts the run (here on the first
invocation); it is not recovered by the retry sub-loop, whose only
locally-handled failure is a `json.JSONDecodeError` from re-parsing a
retry candidate with `json.loads`. -/
theorem schema_error_propagates (sp : StrParse) (chain : Chain) (g : QuizGenerator)
    (hvs : g.vectorstore = true) (hn : 1 ≤ g.num_questions)
    (hc : chain 0 = .error .outputParserException) :
    generate_quiz sp chain g = .error .outputParserException := by
  unfold generate_quiz
  obtain ⟨m, hm⟩ : ∃ m, g.num_questions.toNat = m + 1 :=
    ⟨g.num_questions.toNat - 1, by omega⟩
  rw [hm]
  unfold quizLoop
  simp [generate_question_with_vectorstore, hvs, hc, Except.map]

/-- Claim C2, witness for the amended theorem. -/
theorem schema_error_propagates_witness :
    gen1.vectorstore = true ∧ 1 ≤ gen1.num_questions ∧
    generate_quiz sp0 chainErr gen1 = .error .outputParserException :=
  ⟨rfl, by decide, schema_error_propagates sp0 chainErr gen1 rfl (by decide) rfl⟩

end Quizify

namespace Quizify

/-- Claim C6: constructing a QuizGenerator with `num_questions > 10`
(for example 11) fails at construction time with the configuration
`ValueError`; no instance value is produced, so it cannot be used. -/
theorem init_rejects_gt_ten (topic : Option String) (vs : Bool) (n : Int)
    (h : 10 < n) :
    QuizGenerator.init topic n vs =
      .error (.valueError "Number of questions cannot exceed 10.") := by
  simp [QuizGenerator.init, h]

/-- Claim C6, witness at `num_questions = 11`. -/
theorem init_rejects_gt_ten_witness :
    QuizGenerator.init (some "Math") 11 true =
      .error (.valueError "Number of questions cannot exceed 10.") :=
  init_rejects_gt_ten (some "Math") true 11 (by decide)

/-- Claim C8: a falsy topic (absent/None or the empty string) yields
the configured topic "General Knowledge"; a truthy (non-empty) topic
string is kept unchanged. -/
theorem init_topic_defaulting (nq : Int) (vs : Bool) (h : nq ≤ 10) :
    QuizGenerator.init none nq vs = .ok ⟨"General Knowledge", nq, vs, []⟩ ∧
    QuizGenerator.init (some "") nq vs = .ok ⟨"General Knowledge", nq, vs, []⟩ ∧
    ∀ s : String, s ≠ "" →
      QuizGenerator.init (some s) nq vs = .ok ⟨s, nq, vs, []⟩ := by
  have hn : ¬ nq > 10 := by omega
  refine ⟨by simp [QuizGenerator.init, hn], by simp [QuizGenerator.init, hn], ?_⟩
  intro s hs
  have hsb : (s == "") = false := beq_eq_false_iff_ne.mpr hs
  simp [QuizGenerator.init, hn, hsb]

/-- Claim C8, witness: default applied for None and for the empty
string at `num_questions = 3`, and the topic "Math" kept unchanged. -/
theorem init_topic_defaulting_witness :
    QuizGenerator.init none 3 true = .ok ⟨"General Knowledge", 3, true, []⟩ ∧
    QuizGenerator.init (some "Math") 3 true = .ok ⟨"Math", 3, true, []⟩ :=
  ⟨(init_topic_defaulting 3 true (by decide)).1,
   (init_topic_defaulting 3 true (by decide)).2.2 "Math" (by decide)⟩

/-- Claim C10: `__init__` enforces no lower bound on `num_questions`:
any non-positive count is accepted, and `generate_quiz` on such an
instance returns the empty list for every chain oracle (the loop body
never runs, so no chain invocation is performed). -/
theorem init_accepts_nonpositive (topic : Option String) (vs : Bool) (nq : Int)
    (h : nq ≤ 0) :
    ∃ g, QuizGenerator.init topic nq vs = .ok g ∧ g.num_questions = nq ∧
      ∀ (sp : StrParse) (chain : Chain), generate_quiz sp chain g = .ok [] := by
  have hn : ¬ nq > 10 := by omega
  refine ⟨⟨match topic with
           | none => "General Knowledge"
           | some s => if s == "" then "General Knowledge" else s,
           nq, vs, []⟩, by simp [QuizGenerator.init, hn], rfl, ?_⟩
  intro sp chain
  have h0 : nq.toNat = 0 := by omega
  simp [generate_quiz, h0, quizLoop, Except.map]

/-- Claim C10, witness at `num_questions = -3`. -/
theorem init_accepts_nonpositive_witness :
    ∃ g, QuizGenerator.init none (-3) true = .ok g ∧ g.num_questions = -3 ∧
      ∀ (sp : StrParse) (chain : Chain), generate_quiz sp chain g = .ok [] :=
  init_accepts_nonpositive none true (-3) (by decide)

end Quizify

namespace Quizify

/-- Claim C3: in every completed `generate_quiz` run, no two entries of
the returned bank have identical `question` text under exact string
equality (their `question` fields are pairwise Python-unequal, which
for string fields is exact string inequality). -/
theorem generate_quiz_no_duplicate_question_text (sp : StrParse) (chain : Chain)
    (g : QuizGenerator) (bank : List JValue)
    (h : generate_quiz sp chain g = .ok bank) :
    List.Pairwise (fun a b => ∀ s t, questionField a = some (.jstr s) →
      questionField b = some (.jstr t) → s ≠ t) bank := by
  unfold generate_quiz at h
  cases hq : quizLoop sp g.vectorstore chain g.num_questions.toNat [] 0 with
  | error e => rw [hq] at h; simp [Except.map] at h
  | ok r =>
      rw [hq] at h
      simp [Except.map] at h
      have hinv := quizLoop_inv sp g.vectorstore chain _ [] 0 r hq bankInv_nil
      rw [h] at hinv
      refine List.Pairwise.imp (fun hab => ?_) hinv.2
      intro s t has hbt
      have hpe := hab _ _ has hbt
      have hst : (s == t) = false := by simpa [pyEq] using hpe
      exact beq_eq_false_iff_ne.mp hst

/-- Claim C3, witness: a completed two-question run. -/
theorem generate_quiz_no_duplicate_question_text_witness :
    List.Pairwise (fun a b => ∀ s t, questionField a = some (.jstr s) →
      questionField b = some (.jstr t) → s ≠ t) [mkQ "alpha", mkQ "beta"] :=
  generate_quiz_no_duplicate_question_text sp0 chainAB gen2 [mkQ "alpha", mkQ "beta"] rfl

/-- Claim C4: for every valid `num_questions` in [1,10], a completed
`generate_quiz` run returns at most `num_questions` entries (each of
the `num_questions` outer iterations appends at most one question). -/
theorem generate_quiz_length_le (sp : StrParse) (chain : Chain) (g : QuizGenerator)
    (bank : List JValue) (h1 : 1 ≤ g.num_questions) (h2 : g.num_questions ≤ 10)
    (h : generate_quiz sp chain g = .ok bank) :
    (bank.length : Int) ≤ g.num_questions := by
  unfold generate_quiz at h
  cases hq : quizLoop sp g.vectorstore chain g.num_questions.toNat [] 0 with
  | error e => rw [hq] at h; simp [Except.map] at h
  | ok r =>
      rw [hq] at h
      simp [Except.map] at h
      obtain ⟨t, ht, hl⟩ := quizLoop_growth sp g.vectorstore chain _ [] 0 r hq
      have hlen : bank.length ≤ g.num_questions.toNat := by
        rw [← h, ht]
        simpa using hl
      omega

/-- Claim C4, witness: a completed two-question run at
`num_questions = 2`. -/
theorem generate_quiz_length_le_witness :
    (([mkQ "alpha", mkQ "beta"] : List JValue).length : Int) ≤ gen2.num_questions :=
  generate_quiz_length_le sp0 chainAB gen2 [mkQ "alpha", mkQ "beta"]
    (by decide) (by decide) rfl

/-- Claim C5, counterexample: the code never checks the shape of
`choices`/`answer`, so a candidate with an empty choice list and answer
"E" completes a run and reaches the returned bank even though it
violates the spec's Question invariants. -/
theorem malformed_entry_reaches_bank :
    generate_quiz sp0 chainBad gen1 = .ok [badQ] ∧ specQuestionValid badQ = false :=
  ⟨rfl, rfl⟩

/-- Claim C5 as amended: every entry of a completed run's bank is a
value whose `question` subscript succeeds with a Python-truthy value
(the only shape property `validate_question` enforces); the remaining
Question invariants (4 choices with keys {A,B,C,D}, matching `answer`)
are not enforced by the code. -/
theorem generate_quiz_entries_have_question (sp : StrParse) (chain : Chain)
    (g : QuizGenerator) (bank : List JValue)
    (h : generate_quiz sp chain g = .ok bank) :
    ∀ v ∈ bank, ∃ qv, questionField v = some qv ∧ truthy qv = true := by
  unfold generate_quiz at h
  cases hq : quizLoop sp g.vectorstore chain g.num_questions.toNat [] 0 with
  | error e => rw [hq] at h; simp [Except.map] at h
  | ok r =>
      rw [hq] at h
      simp [Except.map] at h
      have hinv := quizLoop_inv sp g.vectorstore chain _ [] 0 r hq bankInv_nil
      rw [h] at hinv
      exact hinv.1

/-- Claim C5, witness for the amended theorem. -/
theorem generate_quiz_entries_have_question_witness :
    ∃ qv, questionField (mkQ "alpha") = some qv ∧ truthy qv = true :=
  generate_quiz_entries_have_question sp0 chainAB gen2 [mkQ "alpha", mkQ "beta"] rfl
    (mkQ "alpha") (List.mem_cons_self _ _)

/-- Claim C9: the question bank is reset to `[]` at the start of every
`generate_quiz` invocation (the run is exactly the loop started from
the empty bank), and the loop only appends: any bank state reached
during the run is a prefix of the final returned bank. -/
theorem question_bank_reset_and_monotone (sp : StrParse) (chain : Chain)
    (g : QuizGenerator) :
    generate_quiz sp chain g =
      (quizLoop sp g.vectorstore chain g.num_questions.toNat [] 0).map Prod.fst ∧
    ∀ (n : Nat) (bank : List JValue) (k : Nat) (r : List JValue × Nat),
      quizLoop sp g.vectorstore chain n bank k = .ok r → ∃ t, r.1 = bank ++ t :=
  ⟨rfl, fun n bank k r h =>
    (quizLoop_growth sp g.vectorstore chain n bank k r h).elim
      (fun t ht => ⟨t, ht.1⟩)⟩

/-- Claim C9, witness: continuing a run from a non-empty bank only
extends it. -/
theorem question_bank_reset_and_monotone_witness :
    ∃ t, ([mkQ "alpha", mkQ "beta"] : List JValue) = [mkQ "alpha"] ++ t :=
  (question_bank_reset_and_monotone sp0 chainAB gen2).2 1 [mkQ "alpha"] 1
    ([mkQ "alpha", mkQ "beta"], 2) rfl

end Quizify

namespace Quizify

/-- Claim C7: `validate_question` raises the `ValueError` for every
dict candidate lacking a truthy `question` field (including `{}`), and
otherwise returns a boolean that is true exactly when no bank entry's
`question` field is Python-equal (for strings: exactly string-equal) to
the candidate's; a duplicate is reported as `.ok false`, never as an
error, and a missing/empty field as an error, never as "not unique". -/
theorem validate_question_contract (bank : List JValue) (fs : List (String × JValue))
    (hbank : bank.all (fun e => (questionField e).isSome) = true) :
    (hasTruthyQuestion (.jobj fs) = false →
      validate_question bank (.jobj fs) =
        .error (.valueError "The dict object must contain a non-empty 'question' key")) ∧
    (∀ qv, questionField (.jobj fs) = some qv → truthy qv = true →
      validate_question bank (.jobj fs) = .ok (!bank.any (isDuplicateOf qv))) := by
  have hbank' : ∀ e ∈ bank, (questionField e).isSome := by
    intro e he
    exact List.all_eq_true.mp hbank e he
  constructor
  · intro hfalse
    cases hlf : lookupField "question" fs with
    | none =>
        have hany : fs.any (fun f => f.1 == "question") = false :=
          (lookupField_none_iff _ _).mp hlf
        simp [validate_question, pyContains, hany]
    | some x =>
        have hany : fs.any (fun f => f.1 == "question") = true := by
          cases hh : fs.any (fun f => f.1 == "question") with
          | false =>
              rw [(lookupField_none_iff _ _).mpr hh] at hlf
              exact absurd hlf (by simp)
          | true => rfl
        have hsub : pySubscript (.jobj fs) "question" = .ok x :=
          (pySubscript_jobj _ _ _).mpr hlf
        have hqf : questionField (.jobj fs) = some x := questionField_eq_some.mpr hsub
        have htr : truthy x = false := by
          unfold hasTruthyQuestion at hfalse
          rw [hqf] at hfalse
          simpa using hfalse
        simp [validate_question, pyContains, hany, hsub, htr]
  · intro qv hqf htr
    have hsub : pySubscript (.jobj fs) "question" = .ok qv := questionField_eq_some.mp hqf
    have hlf : lookupField "question" fs = some qv := (pySubscript_jobj _ _ _).mp hsub
    have hany : fs.any (fun f => f.1 == "question") = true := by
      cases hh : fs.any (fun f => f.1 == "question") with
      | false =>
          rw [(lookupField_none_iff _ _).mpr hh] at hlf
          exact absurd hlf (by simp)
      | true => rfl
    have hscan := bankScan_eq qv bank hbank'
    simp [validate_question, pyContains, hany, hsub, htr, hscan]

/-- Claim C7, witness: against a bank holding one question "alpha",
the empty dict raises the `ValueError`, the duplicate candidate gets
`.ok false`, and a fresh candidate gets `.ok true`. -/
theorem validate_question_contract_witness :
    validate_question [mkQ "alpha"] (.jobj []) =
      .error (.valueError "The dict object must contain a non-empty 'question' key") ∧
    validate_question [mkQ "alpha"] (.jobj [("question", .jstr "alpha")]) = .ok false ∧
    validate_question [mkQ "alpha"] (.jobj [("question", .jstr "zeta")]) = .ok true :=
  ⟨(validate_question_contract [mkQ "alpha"] [] rfl).1 rfl,
   (validate_question_contract [mkQ "alpha"] [("question", .jstr "alpha")] rfl).2
     (.jstr "alpha") rfl rfl,
   (validate_question_contract [mkQ "alpha"] [("question", .jstr "zeta")] rfl).2
     (.jstr "zeta") rfl rfl⟩

end Quizify
